import Mathlib

/-
Shallow embedding of the weather_forcast repository.

Source files embedded:
  src/backend.py : credential resolution (module level) and get_data
  src/main.py    : the Streamlit per-request flow - place input, try block,
                   Temperature and Sky branches, except KeyError handler.

Python exceptions are modelled with an explicit error type PyErr carried in
Except; a list comprehension that can raise is modelled by exceptMap, which
stops at the first failing element exactly as the comprehension does. The
HTTP collaborator is modelled by a ProviderResult value passed in: netFail
stands for requests.get raising a transport error, reply carries the HTTP
status code and the optional "list" field of the parsed JSON body (the only
field the code reads). JSON numbers are modelled as Rat.
-/

set_option autoImplicit false

namespace WeatherForecast

/-- The nested temperature record of one forecast entry: entry["main"]. -/
structure MainData where
  temp : Rat
deriving DecidableEq

/-- One weather descriptor: an element of entry["weather"]. -/
structure WeatherDesc where
  main : String
deriving DecidableEq

/-- One 3-hour forecast sample as returned by the provider, with the fields
the code reads: dt, dt_txt, main.temp, weather. -/
structure Entry where
  dt : Int
  dt_txt : String
  main : MainData
  weather : List WeatherDesc
deriving DecidableEq

/-- The Python exceptions that can arise in the embedded code paths. -/
inductive PyErr
  | keyError
  | indexError
  | requestError
deriving DecidableEq

/-- Outcome of the one outbound HTTP call: a transport failure (requests.get
raises) or a reply with a status code and the optional "list" field of the
parsed body. -/
inductive ProviderResult
  | netFail
  | reply (status : Nat) (listField : Option (List Entry))
deriving DecidableEq

/-- How a Python f-string renders the module-level API_KEY value: None prints
as the text "None", a string prints as itself. -/
def pyShow : Option String → String
  | none => "None"
  | some s => s

/-- The URL built in get_data (src/backend.py line 75). -/
def requestUrl (apiKey : Option String) (place : String) : String :=
  "http://api.openweathermap.org/data/2.5/forecast?q=" ++ place ++
    "&appid=" ++ pyShow apiKey ++ "&units=metric"

/-- Module-level credential resolution (src/backend.py lines 25-31):
API_KEY = _SECRET_API_KEY or os.getenv("API_KEY").  A secrets value that is
None or the empty string is falsy, so the environment variable is used. -/
def resolveApiKey (secret env : Option String) : Option String :=
  match secret with
  | some s => if s = "" then env else some s
  | none => env

/-- get_data (src/backend.py lines 34-94).  Returns the list of HTTP
requests issued (always exactly the one templated URL) together with the
result: a transport failure raises requests.RequestException; a body without
the "list" key raises KeyError at data[\x22list\x22]; otherwise the list is
sliced to the first 8 * forcast_days entries. -/
def get_data (apiKey : Option String) (place : String) (forcast_days : Nat)
    (resp : ProviderResult) : List String × Except PyErr (List Entry) :=
  ([requestUrl apiKey place],
    match resp with
    | .netFail => .error .requestError
    | .reply _ body =>
      match body with
      | none => .error .keyError
      | some l => .ok (l.take (8 * forcast_days)))

/-- The two values of the mode selector in src/main.py line 51. -/
inductive Mode
  | Temperature
  | Sky
deriving DecidableEq

/-- The icon dictionary of the Sky branch (src/main.py lines 115-118), as a
partial map: none means the key is absent from the dict. -/
def images (condition : String) : Option String :=
  if condition = "Clear" then some "images/clear.png"
  else if condition = "Clouds" then some "images/cloud.png"
  else if condition = "Rain" then some "images/rain.png"
  else if condition = "Snow" then some "images/snow.png"
  else none

/-- Python dict subscription images[condition]: raises KeyError when the key
is absent. -/
def dictLookup (condition : String) : Except PyErr String :=
  match images condition with
  | some path => .ok path
  | none => .error .keyError

/-- The per-entry expression entry["weather"][0]["main"] of the sky
comprehension (src/main.py line 122): indexing an empty list raises
IndexError. -/
def skyOf (e : Entry) : Except PyErr String :=
  match e.weather with
  | [] => .error .indexError
  | d :: _ => .ok d.main

/-- A Python list comprehension whose element expression can raise: elements
are evaluated left to right and the first exception aborts the whole
comprehension. -/
def exceptMap {α β : Type} (f : α → Except PyErr β) : List α → Except PyErr (List β)
  | [] => .ok []
  | a :: as =>
    match f a with
    | .error e => .error e
    | .ok b =>
      match exceptMap f as with
      | .error e => .error e
      | .ok bs => .ok (b :: bs)

/-- Temperature branch: [(entry["main"]["temp"]) for entry in filtered_data]
(src/main.py line 83). -/
def temperaturesOf (w : List Entry) : List Rat :=
  w.map (fun e => e.main.temp)

/-- Temperature branch: [entry["dt_txt"] for entry in filtered_data]
(src/main.py line 86). -/
def datesOf (w : List Entry) : List String :=
  w.map (fun e => e.dt_txt)

/-- Sky branch: sky = [entry["weather"][0]["main"] for entry in
filtered_data] (src/main.py line 122). -/
def skyListOf (w : List Entry) : Except PyErr (List String) :=
  exceptMap skyOf w

/-- Sky branch: image_paths = [images[condition] for condition in sky]
(src/main.py line 125), run after the sky comprehension finished. -/
def imagePathsOf (w : List Entry) : Except PyErr (List String) :=
  match skyListOf w with
  | .error e => .error e
  | .ok sky => exceptMap dictLookup sky

/-- Sky branch: caption = [entry["dt_txt"] for entry in filtered_data]
(src/main.py line 128). -/
def captionsOf (w : List Entry) : List String :=
  w.map (fun e => e.dt_txt)

/-- What the Streamlit page shows after one request: nothing (no place
entered), a plotly chart, an image grid with captions, the st.error message,
or an uncaught Python exception. -/
inductive Display
  | nothing
  | chart (dates : List String) (temps : List Rat)
  | grid (paths : List String) (captions : List String)
  | errorMsg (msg : String)
  | crash (e : PyErr)
deriving DecidableEq

/-- The message of src/main.py line 143. -/
def genericError : String := "City not found. Please try again."

/-- The body of the try block (src/main.py lines 61-133): fetch, then branch
on the mode selector. -/
def tryBody (apiKey : Option String) (place : String) (days : Nat)
    (mode : Mode) (resp : ProviderResult) : Except PyErr Display :=
  match (get_data apiKey place days resp).2 with
  | .error e => .error e
  | .ok filtered_data =>
    match mode with
    | .Temperature =>
      .ok (.chart (datesOf filtered_data) (temperaturesOf filtered_data))
    | .Sky =>
      match imagePathsOf filtered_data with
      | .error e => .error e
      | .ok paths => .ok (.grid paths (captionsOf filtered_data))

/-- The except clause (src/main.py lines 135-143): only KeyError is caught
and turned into the generic st.error message; any other exception keeps
propagating. -/
def handleExcept : Except PyErr Display → Display
  | .ok d => d
  | .error .keyError => .errorMsg genericError
  | .error e => .crash e

/-- One full per-request flow of src/main.py from line 60: nothing happens
unless the place string is truthy (non-empty); otherwise the try body runs
under the except KeyError handler.  The second component counts the HTTP
fetches attempted. -/
def runRequest (apiKey : Option String) (place : String) (days : Nat)
    (mode : Mode) (resp : ProviderResult) : Display × Nat :=
  if place = "" then (.nothing, 0)
  else (handleExcept (tryBody apiKey place days mode resp), 1)

/-- The two UI states of the specified state machine. -/
inductive UIState
  | AwaitingPlace
  | DisplayingResult
deriving DecidableEq

/-- The UI state an observer reads off a finished request: AwaitingPlace
when no fetch was attempted, DisplayingResult once a fetch happened. -/
def uiStateOf (r : Display × Nat) : UIState :=
  if r.2 = 0 then .AwaitingPlace else .DisplayingResult

/-- A well-formed sample entry used for concrete evaluations. -/
def sampleEntry : Entry :=
  { dt := 1758067200, dt_txt := "2025-09-17 00:00:00",
    main := { temp := 25 }, weather := [{ main := "Clear" }] }

/-- An entry whose weather descriptor list is empty. -/
def emptyWeatherEntry : Entry :=
  { dt := 1758078000, dt_txt := "2025-09-17 03:00:00",
    main := { temp := 24 }, weather := [] }

/-- An entry carrying a category outside the four-key icon dictionary. -/
def mistEntry : Entry :=
  { dt := 1758088800, dt_txt := "2025-09-17 06:00:00",
    main := { temp := 23 }, weather := [{ main := "Mist" }] }

/-! ## Shared helper lemmas -/

theorem get_take {α : Type} (l : List α) (n i : Nat)
    (hi : i < (l.take n).length) (hl : i < l.length) :
    (l.take n).get ⟨i, hi⟩ = l.get ⟨i, hl⟩ := by
  simp [List.get_eq_getElem, List.getElem_take]

theorem get_map {α β : Type} (f : α → β) (l : List α) (i : Nat)
    (hm : i < (l.map f).length) (hl : i < l.length) :
    (l.map f).get ⟨i, hm⟩ = f (l.get ⟨i, hl⟩) := by
  simp [List.get_eq_getElem, List.getElem_map]

theorem exceptMap_error {α β : Type} (f : α → Except PyErr β) (err : PyErr)
    (honly : ∀ a e, f a = .error e → e = err) :
    ∀ l : List α, (∃ a ∈ l, ∃ e, f a = .error e) →
      exceptMap f l = .error err := by
  intro l
  induction l with
  | nil => rintro ⟨a, ha, _⟩; cases ha
  | cons a as ih =>
    rintro ⟨x, hx, e, hfe⟩
    show exceptMap f (a :: as) = .error err
    unfold exceptMap
    cases hfa : f a with
    | error e0 => simp [honly a e0 hfa]
    | ok b =>
      rcases List.mem_cons.mp hx with rfl | hxs
      · rw [hfa] at hfe; cases hfe
      · rw [ih ⟨x, hxs, e, hfe⟩]

theorem exceptMap_ok {α β : Type} (f : α → Except PyErr β) :
    ∀ l : List α, (∀ a ∈ l, ∃ b, f a = .ok b) →
      ∃ bs, exceptMap f l = .ok bs := by
  intro l
  induction l with
  | nil => intro _; exact ⟨[], rfl⟩
  | cons a as ih =>
    intro h
    obtain ⟨b, hb⟩ := h a (List.mem_cons_self a as)
    obtain ⟨bs, hbs⟩ := ih (fun x hx => h x (List.mem_cons_of_mem a hx))
    refine ⟨b :: bs, ?_⟩
    unfold exceptMap
    rw [hb, hbs]

theorem exceptMap_ok_all {α β : Type} (f : α → Except PyErr β) :
    ∀ (l : List α) (bs : List β), exceptMap f l = .ok bs →
      ∀ a ∈ l, ∃ b, f a = .ok b := by
  intro l
  induction l with
  | nil => intro bs _ a ha; cases ha
  | cons x xs ih =>
    intro bs h a ha
    unfold exceptMap at h
    cases hfx : f x with
    | error e => rw [hfx] at h; cases h
    | ok b =>
      rw [hfx] at h
      cases hxs : exceptMap f xs with
      | error e => rw [hxs] at h; cases h
      | ok bs0 =>
        rcases List.mem_cons.mp ha with rfl | has
        · exact ⟨b, hfx⟩
        · exact ih bs0 hxs a has

theorem exceptMap_mem {α β : Type} (f : α → Except PyErr β) :
    ∀ (l : List α) (bs : List β), exceptMap f l = .ok bs →
      ∀ a ∈ l, ∀ b, f a = .ok b → b ∈ bs := by
  intro l
  induction l with
  | nil => intro bs _ a ha; cases ha
  | cons x xs ih =>
    intro bs h a ha b hab
    unfold exceptMap at h
    cases hfx : f x with
    | error e => rw [hfx] at h; cases h
    | ok b0 =>
      rw [hfx] at h
      cases hxs : exceptMap f xs with
      | error e => rw [hxs] at h; cases h
      | ok bs0 =>
        rw [hxs] at h
        cases h
        rcases List.mem_cons.mp ha with rfl | has
        · rw [hfx] at hab
          injection hab with hb
          rw [← hb]
          exact List.mem_cons_self _ _
        · exact List.mem_cons_of_mem b0 (ih bs0 hxs a has b hab)

theorem skyOf_error_elim (e : Entry) (err : PyErr)
    (h : skyOf e = .error err) : err = PyErr.indexError := by
  unfold skyOf at h
  cases hw : e.weather with
  | nil => rw [hw] at h; cases h; rfl
  | cons d ds => rw [hw] at h; cases h

theorem dictLookup_error_elim (c : String) (err : PyErr)
    (h : dictLookup c = .error err) : err = PyErr.keyError := by
  unfold dictLookup at h
  cases hc : images c with
  | none => rw [hc] at h; cases h; rfl
  | some p => rw [hc] at h; cases h

/-! ## Claim theorems -/

/-- C1: for every place string and every days in [1,5], get_data returns
exactly the first min(providerSampleCount, 8*days) entries of the provider
list, in the provider order, with no reordering, deduplication or padding;
fewer available samples give a window of exactly the available count. -/
theorem C1_forecast_window (apiKey : Option String) (place : String)
    (days : Nat) (_h1 : 1 ≤ days) (_h5 : days ≤ 5) (status : Nat)
    (l : List Entry) :
    ∃ w : List Entry,
      (get_data apiKey place days (.reply status (some l))).2 = .ok w ∧
      w.length = min l.length (8 * days) ∧
      ∀ i : Nat, ∀ hw : i < w.length, ∀ hl : i < l.length,
        w.get ⟨i, hw⟩ = l.get ⟨i, hl⟩ := by
  refine ⟨l.take (8 * days), rfl, ?_, ?_⟩
  · simp [List.length_take, Nat.min_comm]
  · intro i hw hl
    exact get_take l (8 * days) i hw hl

/-- C1 witness: days = 3, a concrete two-entry provider list. -/
theorem C1_forecast_window_witness :
    ∃ w : List Entry,
      (get_data none "Tokyo" 3 (.reply 200 (some [sampleEntry, mistEntry]))).2
        = .ok w ∧
      w.length = min ([sampleEntry, mistEntry] : List Entry).length (8 * 3) ∧
      ∀ i : Nat, ∀ hw : i < w.length,
        ∀ hl : i < ([sampleEntry, mistEntry] : List Entry).length,
        w.get ⟨i, hw⟩ = ([sampleEntry, mistEntry] : List Entry).get ⟨i, hl⟩ :=
  C1_forecast_window none "Tokyo" 3 (by decide) (by decide) 200
    [sampleEntry, mistEntry]

/-- C5: Temperature mode derives two parallel sequences whose lengths equal
the window length, where position i holds entry i of the window, dt_txt for
dates and main.temp for temperatures, in window order. -/
theorem C5_temperature_mode (w : List Entry) :
    (datesOf w).length = w.length ∧
    (temperaturesOf w).length = w.length ∧
    (∀ i : Nat, ∀ hd : i < (datesOf w).length, ∀ hi : i < w.length,
      (datesOf w).get ⟨i, hd⟩ = (w.get ⟨i, hi⟩).dt_txt) ∧
    (∀ i : Nat, ∀ ht : i < (temperaturesOf w).length, ∀ hi : i < w.length,
      (temperaturesOf w).get ⟨i, ht⟩ = (w.get ⟨i, hi⟩).main.temp) := by
  refine ⟨by simp [datesOf], by simp [temperaturesOf], ?_, ?_⟩
  · intro i hd hi
    simp only [datesOf] at hd ⊢
    exact get_map (fun e => e.dt_txt) w i hd hi
  · intro i ht hi
    simp only [temperaturesOf] at ht ⊢
    exact get_map (fun e => e.main.temp) w i ht hi

/-- C5 witness at a one-entry window. -/
theorem C5_temperature_mode_witness :
    (datesOf [sampleEntry]).get ⟨0, by decide⟩ = sampleEntry.dt_txt ∧
    (temperaturesOf [sampleEntry]).get ⟨0, by decide⟩ = sampleEntry.main.temp :=
  ⟨(C5_temperature_mode [sampleEntry]).2.2.1 0 (by decide) (by decide),
   (C5_temperature_mode [sampleEntry]).2.2.2 0 (by decide) (by decide)⟩

/-- C6: the Sky icon lookup is a pure function whose domain is exactly the
four categories Clear, Clouds, Rain, Snow, and the four categories map to
pairwise distinct icon paths. -/
theorem C6_icon_lookup :
    (∀ c : String, (images c).isSome = true ↔
      (c = "Clear" ∨ c = "Clouds" ∨ c = "Rain" ∨ c = "Snow")) ∧
    (∀ c₁ c₂ : String, c₁ = c₂ → images c₁ = images c₂) ∧
    (images "Clear" ≠ images "Clouds" ∧ images "Clear" ≠ images "Rain" ∧
     images "Clear" ≠ images "Snow" ∧ images "Clouds" ≠ images "Rain" ∧
     images "Clouds" ≠ images "Snow" ∧ images "Rain" ≠ images "Snow") := by
  refine ⟨?_, ?_, by decide⟩
  · intro c
    unfold images
    split_ifs with h1 h2 h3 h4 <;> simp_all
  · intro c₁ c₂ h
    rw [h]

/-- C6 witness: a mapped and an unmapped category evaluated concretely. -/
theorem C6_icon_lookup_witness :
    (images "Clear").isSome = true ∧ (images "Mist").isSome = false :=
  ⟨(C6_icon_lookup.1 "Clear").mpr (Or.inl rfl), by decide⟩

/-- C7: with an empty place no fetch is attempted and the UI stays in
AwaitingPlace, whatever the days value; the DisplayingResult state is
entered exactly when the place string is non-empty. -/
theorem C7_empty_place (apiKey : Option String) (place : String) (days : Nat)
    (mode : Mode) (resp : ProviderResult) :
    runRequest apiKey "" days mode resp = (Display.nothing, 0) ∧
    uiStateOf (runRequest apiKey "" days mode resp) = UIState.AwaitingPlace ∧
    (runRequest apiKey place days mode resp).2 =
      (if place = "" then 0 else 1) ∧
    uiStateOf (runRequest apiKey place days mode resp) =
      (if place = "" then UIState.AwaitingPlace
       else UIState.DisplayingResult) := by
  by_cases h : place = "" <;> simp [runRequest, uiStateOf, h]

/-- C9: every call of get_data issues exactly one GET request, to the fixed
forecast endpoint templated with the place name, the credential and the
units=metric selector, with no retries. -/
theorem C9_single_get (apiKey : Option String) (place : String) (days : Nat)
    (resp : ProviderResult) :
    (get_data apiKey place days resp).1 =
      ["http://api.openweathermap.org/data/2.5/forecast?q=" ++ place ++
        "&appid=" ++ pyShow apiKey ++ "&units=metric"] ∧
    (get_data apiKey place days resp).1.length = 1 :=
  ⟨rfl, rfl⟩

theorem tryBody_ok_shape (apiKey : Option String) (place : String)
    (days : Nat) (mode : Mode) (resp : ProviderResult) (d : Display)
    (h : tryBody apiKey place days mode resp = .ok d) :
    (∃ a b, d = Display.chart a b) ∨ (∃ a b, d = Display.grid a b) := by
  unfold tryBody at h
  split at h
  · cases h
  · split at h
    · cases h; exact Or.inl ⟨_, _, rfl⟩
    · split at h
      · cases h
      · cases h; exact Or.inr ⟨_, _, rfl⟩

/-- C2 counterexample: a transport failure during the fetch is an exception
of the per-request flow, yet the except KeyError handler does not catch it:
the flow crashes instead of showing the generic error message. -/
theorem C2_counterexample :
    runRequest none "Tokyo" 1 Mode.Temperature ProviderResult.netFail =
      (Display.crash PyErr.requestError, 1) ∧
    Display.crash PyErr.requestError ≠ Display.errorMsg genericError :=
  ⟨rfl, by decide⟩

/-- C2 (amended): the per-request handler catches exactly KeyError - the
generic message is shown precisely when the try body raised KeyError, and
any other exception (transport failure, IndexError) propagates uncaught. -/
theorem C2_only_keyError_caught (apiKey : Option String) (place : String)
    (days : Nat) (mode : Mode) (resp : ProviderResult) (hp : place ≠ "") :
    ((runRequest apiKey place days mode resp).1 =
        Display.errorMsg genericError ↔
      tryBody apiKey place days mode resp = .error PyErr.keyError) ∧
    ∀ e : PyErr, e ≠ PyErr.keyError →
      tryBody apiKey place days mode resp = .error e →
      (runRequest apiKey place days mode resp).1 = Display.crash e := by
  have hrun : (runRequest apiKey place days mode resp).1 =
      handleExcept (tryBody apiKey place days mode resp) := by
    simp [runRequest, hp]
  refine ⟨?_, ?_⟩
  · rw [hrun]
    cases ht : tryBody apiKey place days mode resp with
    | ok d =>
      rcases tryBody_ok_shape apiKey place days mode resp d ht with
        ⟨a, b, rfl⟩ | ⟨a, b, rfl⟩ <;> simp [handleExcept]
    | error e => cases e <;> simp [handleExcept]
  · intro e hne ht
    rw [hrun, ht]
    cases e with
    | keyError => exact absurd rfl hne
    | indexError => rfl
    | requestError => rfl

/-- C2 witness for the amended claim: a missing list key raises KeyError and
the flow shows the generic message. -/
theorem C2_only_keyError_caught_witness :
    (runRequest none "Berlin" 1 Mode.Temperature
        (ProviderResult.reply 404 none)).1 = Display.errorMsg genericError :=
  (C2_only_keyError_caught none "Berlin" 1 Mode.Temperature
      (ProviderResult.reply 404 none) (by decide)).1.mpr rfl

/-- C3: in Sky mode, a window containing an entry whose category is outside
the icon dictionary makes the image-path comprehension raise KeyError: no
list of paths is produced at all, so the entry is neither silently dropped
nor given a partial or null icon. -/
theorem C3_unmapped_category (w : List Entry) (e : Entry) (c : String)
    (hwf : ∀ x ∈ w, x.weather ≠ []) (he : e ∈ w)
    (hc : skyOf e = .ok c) (hmiss : images c = none) :
    imagePathsOf w = .error PyErr.keyError := by
  have hall : ∀ x ∈ w, ∃ b, skyOf x = .ok b := by
    intro x hx
    cases hxw : x.weather with
    | nil => exact absurd hxw (hwf x hx)
    | cons d ds => exact ⟨d.main, by simp [skyOf, hxw]⟩
  obtain ⟨cs, hcs⟩ := exceptMap_ok skyOf w hall
  have hcmem : c ∈ cs := exceptMap_mem skyOf w cs hcs e he c hc
  have hrw : imagePathsOf w = exceptMap dictLookup cs := by
    unfold imagePathsOf skyListOf
    rw [hcs]
  rw [hrw]
  exact exceptMap_error dictLookup PyErr.keyError dictLookup_error_elim cs
    ⟨c, hcmem, PyErr.keyError, by simp [dictLookup, hmiss]⟩

/-- C3 witness: a window with a Mist entry evaluated concretely. -/
theorem C3_unmapped_category_witness :
    imagePathsOf [sampleEntry, mistEntry] = .error PyErr.keyError :=
  C3_unmapped_category [sampleEntry, mistEntry] mistEntry "Mist" (by decide)
    (List.mem_cons_of_mem _ (List.mem_cons_self _ _)) rfl rfl

/-- C4 counterexample: get_data never inspects the HTTP status code, so a
404 reply whose body still carries a list field returns data instead of
surfacing a fetch failure, and the flow renders a chart from it. -/
theorem C4_counterexample :
    (get_data none "Paris" 1
        (ProviderResult.reply 404 (some [sampleEntry]))).2 =
      Except.ok [sampleEntry] ∧
    runRequest none "Paris" 1 Mode.Temperature
        (ProviderResult.reply 404 (some [sampleEntry])) =
      (Display.chart [sampleEntry.dt_txt] [sampleEntry.main.temp], 1) :=
  ⟨rfl, rfl⟩

/-- C4 (amended): a transport failure raises RequestException and a body
without the list key raises KeyError, each with no partial result - every
success is the full slice of a present list field; the missing-list case is
shown as the generic message; the HTTP status itself is never inspected. -/
theorem C4_fetch_failures (apiKey : Option String) (place : String)
    (days : Nat) (status : Nat) (mode : Mode) (hp : place ≠ "") :
    (get_data apiKey place days ProviderResult.netFail).2 =
      .error PyErr.requestError ∧
    (get_data apiKey place days (ProviderResult.reply status none)).2 =
      .error PyErr.keyError ∧
    (runRequest apiKey place days mode (ProviderResult.reply status none)).1 =
      Display.errorMsg genericError ∧
    ∀ resp : ProviderResult, ∀ l : List Entry,
      (get_data apiKey place days resp).2 = .ok l →
      ∃ s : Nat, ∃ l0 : List Entry,
        resp = ProviderResult.reply s (some l0) ∧ l = l0.take (8 * days) := by
  refine ⟨rfl, rfl, ?_, ?_⟩
  · simp [runRequest, hp, tryBody, get_data, handleExcept]
  · intro resp l h
    cases resp with
    | netFail => simp [get_data] at h
    | reply s body =>
      cases body with
      | none => simp [get_data] at h
      | some l0 =>
        simp only [get_data] at h
        injection h with h2
        exact ⟨s, l0, rfl, h2.symm⟩

/-- C4 witness for the amended claim: a reply without a list field shows the
generic message. -/
theorem C4_fetch_failures_witness :
    (runRequest none "Lagos" 2 Mode.Sky (ProviderResult.reply 404 none)).1 =
      Display.errorMsg genericError :=
  (C4_fetch_failures none "Lagos" 2 404 Mode.Sky (by decide)).2.2.1

/-- C8: credential resolution is layered - a truthy secrets value wins,
otherwise the environment variable is used - and an absent credential does
not short-circuit the fetch: the request is still issued, with the absent
key rendered into the URL, and the response is processed exactly as it
would be with a credential present. -/
theorem C8_credential (secret env : Option String) (s : String)
    (hs : s ≠ "") (place : String) (days : Nat) (resp : ProviderResult) :
    resolveApiKey (some s) env = some s ∧
    resolveApiKey none env = env ∧
    resolveApiKey (some "") env = env ∧
    (get_data none place days resp).1 = [requestUrl none place] ∧
    (get_data none place days resp).2 =
      (get_data (resolveApiKey secret env) place days resp).2 :=
  ⟨by simp [resolveApiKey, hs], rfl, rfl, rfl, rfl⟩

/-- C8 witness at concrete credential sources and a concrete fetch. -/
theorem C8_credential_witness :
    resolveApiKey (some "k123") (some "envkey") = some "k123" ∧
    (get_data none "Dhaka" 2 ProviderResult.netFail).1 =
      [requestUrl none "Dhaka"] :=
  ⟨(C8_credential (some "k123") (some "envkey") "k123" (by decide) "Dhaka" 2
      ProviderResult.netFail).1,
   (C8_credential (some "k123") (some "envkey") "k123" (by decide) "Dhaka" 2
      ProviderResult.netFail).2.2.2.1⟩

/-- C10: a window entry with an empty weather descriptor list makes the sky
comprehension raise IndexError; the per-request handler catches only
KeyError, so the flow crashes instead of showing the generic message; the
extraction succeeds exactly when every weather list in the window is
non-empty. -/
theorem C10_empty_weather (apiKey : Option String) (place : String)
    (days : Nat) (status : Nat) (l : List Entry) (hp : place ≠ "")
    (hbad : ∃ e ∈ l.take (8 * days), e.weather = []) :
    runRequest apiKey place days Mode.Sky
        (ProviderResult.reply status (some l)) =
      (Display.crash PyErr.indexError, 1) ∧
    ∀ w : List Entry,
      (∃ cs, skyListOf w = Except.ok cs) ↔ ∀ x ∈ w, x.weather ≠ [] := by
  have herr : ∀ w : List Entry, (∃ e ∈ w, e.weather = []) →
      skyListOf w = .error PyErr.indexError := by
    rintro w ⟨e, hew, hwe⟩
    exact exceptMap_error skyOf PyErr.indexError skyOf_error_elim w
      ⟨e, hew, PyErr.indexError, by simp [skyOf, hwe]⟩
  constructor
  · have hsky : skyListOf (l.take (8 * days)) = .error PyErr.indexError :=
      herr _ hbad
    simp [runRequest, hp, tryBody, get_data, imagePathsOf, hsky, handleExcept]
  · intro w
    constructor
    · rintro ⟨cs, hcs⟩ x hx hxe
      obtain ⟨b, hb⟩ := exceptMap_ok_all skyOf w cs hcs x hx
      have h2 : skyOf x = .error PyErr.indexError := by simp [skyOf, hxe]
      rw [h2] at hb
      cases hb
    · intro hne
      refine exceptMap_ok skyOf w ?_
      intro x hx
      cases hxw : x.weather with
      | nil => exact absurd hxw (hne x hx)
      | cons d ds => exact ⟨d.main, by simp [skyOf, hxw]⟩

/-- C10 witness: a one-entry window whose weather list is empty crashes the
Sky flow with IndexError. -/
theorem C10_empty_weather_witness :
    runRequest none "Tokyo" 1 Mode.Sky
        (ProviderResult.reply 200 (some [emptyWeatherEntry])) =
      (Display.crash PyErr.indexError, 1) :=
  (C10_empty_weather none "Tokyo" 1 200 [emptyWeatherEntry] (by decide)
      ⟨emptyWeatherEntry, by decide, rfl⟩).1

end WeatherForecast
